import Mathlib

/-!
Verification of the event payload decoder of `etw/etw.py` (class `EventConsumer`).

The Python source is shallowly embedded below.  External Windows/TDH calls
(`TdhGetEventInformation`, `TdhGetEventMapInformation`, `TdhGetPropertySize`,
`TdhGetProperty`, `TdhFormatProperty`) are modelled by an `Env` record of pure
functions giving, per call site and per query, the status codes and values the
operating system would report.  Machine integers appearing in the source
(`c_ushort`, `DWORD`, pointers) are modelled as `Nat`/`Int` with explicit
`% 65536` where the source performs a `c_ushort` conversion.  Python
exceptions are modelled with `Except PyErr`.
-/

set_option maxHeartbeats 1000000

namespace Etw

/-! ### Status codes and constants

The numeric constants live in the companion modules `etw/tdh.py`,
`etw/evntcons.py` and `etw/in6addr.py` (not under `src/`); their values are the
standard Windows ones, and only their distinctness matters below. -/

def ERROR_SUCCESS : Nat := 0
def ERROR_INSUFFICIENT_BUFFER : Nat := 122
def ERROR_NOT_FOUND : Nat := 1168
def ERROR_EVT_INVALID_EVENT_DATA : Nat := 15005

/-- Modelled from the spec: `TDH_INTYPE_BINARY` (input type "binary"), defined
in the missing `etw/tdh.py`; standard TDH value. -/
def TDH_INTYPE_BINARY : Nat := 14

/-- Modelled from the spec: `TDH_OUTTYPE_IPV6` (output type "IPv6 address"),
defined in the missing `etw/tdh.py`; standard TDH value. -/
def TDH_OUTTYPE_IPV6 : Nat := 24

/-- Modelled from the spec: `ct.sizeof(ia.IN6_ADDR)`.  `etw/in6addr.py` is not
under `src/`; the spec fixes the size of the 16-byte address structure. -/
def sizeof_IN6_ADDR : Nat := 16

/-- Modelled from the spec: `ec.EVENT_HEADER_FLAG_32_BIT_HEADER` from the
missing `etw/evntcons.py`; standard value `0x20`. -/
def EVENT_HEADER_FLAG_32_BIT_HEADER : Nat := 32

/-! ### Data model -/

/-- The `EVENT_PROPERTY_INFO.Flags` bits read by `etw.py`
(`tdh.PropertyStruct`, `tdh.PropertyParamLength`, `tdh.PropertyParamCount`,
`tdh.PropertyParamFixedCount` are distinct bits of one bitset; each bit is
modelled as one `Bool`). -/
structure PropFlags where
  propertyStruct : Bool
  paramLength : Bool
  paramCount : Bool
  paramFixedCount : Bool
  deriving DecidableEq, Repr

/-- One `EVENT_PROPERTY_INFO` entry.  The `epi_u1`/`epi_u2`/`epi_u3` unions
are flattened: `length` is the `epi_u3` storage (static length, or the index
of the length-reference property when `paramLength` is set), `count` and
`countPropertyIndex` are the `epi_u2` storage, and the nonStruct/struct parts
of `epi_u1` are separate fields. -/
structure EventProperty where
  nameOffset : Nat
  flags : PropFlags
  inType : Nat
  outType : Nat
  mapNameOffset : Nat
  structStartIndex : Nat
  numOfStructMembers : Nat
  countPropertyIndex : Nat
  count : Nat
  length : Nat

/-- The `EVENT_DESCRIPTOR` part of the event header. -/
structure EventDescriptor where
  id : Nat
  version : Nat
  channel : Nat
  level : Nat
  opcode : Nat
  task : Nat
  keyword : Nat
  deriving DecidableEq, Repr

/-- The fixed `EVENT_HEADER` of a record.  `providerId` and `activityId` hold
the `str(...)` rendering of the GUIDs (the source only ever stringifies
them). -/
structure EventHeader where
  size : Nat
  headerType : Nat
  flags : Nat
  eventProperty : Nat
  threadId : Nat
  processId : Nat
  timeStamp : Int
  providerId : String
  eventDescriptor : EventDescriptor
  kernelTime : Nat
  userTime : Nat
  activityId : String
  deriving DecidableEq, Repr

/-- An `EVENT_RECORD`: header plus user-data payload.  `userData` is the
`UserData` pointer (`none` models a NULL/None pointer), `userDataLength` the
`USHORT` byte length, and `payload` the bytes found at the pointer. -/
structure EventRecord where
  header : EventHeader
  userData : Option Nat
  userDataLength : Nat
  payload : List Nat
  deriving DecidableEq, Repr

/-- A resolved `TRACE_EVENT_INFO` block.  `props` models the unbounded ctypes
indexing of `EventPropertyInfoArray`, and `strings` models
`rel_ptr_to_str info offset` (reading a string at a byte offset inside the
block). -/
structure TraceEventInfo where
  providerNameOffset : Nat
  taskNameOffset : Nat
  eventMessageOffset : Nat
  eventDescriptorId : Nat
  topLevelPropertyCount : Nat
  props : Nat → EventProperty
  strings : Nat → String

/-- Python exceptions raised by the decoder. -/
inductive PyErr where
  /-- `ct.WinError(status)` with an explicit status argument. -/
  | winError (status : Nat)
  /-- `ct.WinError()` with no argument (uses `GetLastError`). -/
  | winErrorLast
  /-- `ETWException(msg)` from `etw.common`. -/
  | etwException (msg : String)
  /-- A Python `ValueError`. -/
  | valueError (msg : String)
  /-- A Python `TypeError`. -/
  | typeError (msg : String)
  deriving DecidableEq, Repr

/-- A decoded Python value as produced by `_unpackSimpleType`:
`None`, a `str` from `TdhFormatProperty`, a `bytes` object from the
fragment-recovery buffer, or the result of a `TDH_CONVERTER_LOOKUP`
converter applied to one of those. -/
inductive PyVal where
  | none
  | str (s : String)
  | bytes (b : List Nat)
  | conv (outType : Nat) (v : PyVal)
  deriving DecidableEq, Repr

/-- The mutable consumer state read and written during one decode:
`self.index` (payload read offset) and `self.vfield_length` (the single-slot
pending variable-length value). -/
structure ConsumerState where
  index : Nat
  vfieldLength : Option Int
  deriving DecidableEq, Repr

/-- A value of the final output mapping (`out` in `_processEvent`): header
integers and strings, nested dictionaries, and decoded payload values. -/
inductive OutVal where
  | py (v : PyVal)
  | nat (n : Nat)
  | int (i : Int)
  | str (s : String)
  | dict (d : List (String × OutVal))

/-- The output mapping: a Python dict modelled as an insertion-ordered
association list with unique keys. -/
abbrev Dict := List (String × OutVal)

/-- The arguments of one `TdhFormatProperty` query, as assembled at lines
481-505 of `etw.py`.  `userData` holds the payload bytes from the current
read offset on. -/
structure FmtQuery where
  mapInfo : Option Nat
  pointerSize : Nat
  inType : Nat
  outType : Nat
  propertyLength : Nat
  userDataRemaining : Nat
  userData : List Nat
  deriving DecidableEq, Repr

/-- The external tracing subsystem: for each call site of `etw.py`, the status
code and output values the OS call would produce.  All components are pure
functions, so a fixed `Env` answers identically whenever queried with the
same arguments. -/
structure Env where
  /-- Status of the sizing call `TdhGetEventInformation(record, 0, None, None, ...)`. -/
  eventInfoProbeStatus : EventRecord → Nat
  /-- Status of the filling call of `TdhGetEventInformation`. -/
  eventInfoFillStatus : EventRecord → Nat
  /-- The `TRACE_EVENT_INFO` block written by the filling call. -/
  eventInfo : EventRecord → TraceEventInfo
  /-- Status of the sizing call of `TdhGetEventMapInformation(record, map_name, ...)`. -/
  mapProbeStatus : EventRecord → String → Nat
  /-- Status of the filling call of `TdhGetEventMapInformation`. -/
  mapFillStatus : EventRecord → String → Nat
  /-- The `EVENT_MAP_INFO` pointer written by the filling call (abstract handle). -/
  mapValue : EventRecord → String → Nat
  /-- Status of `TdhGetPropertySize` in `_getPropertyLength`, keyed by the
  referenced property's name. -/
  propSizeStatus : EventRecord → String → Nat
  /-- Status of `TdhGetProperty` in `_getPropertyLength`. -/
  propStatus : EventRecord → String → Nat
  /-- The `DWORD` length written by `TdhGetProperty` in `_getPropertyLength`. -/
  propValue : EventRecord → String → Nat
  /-- Status of the first `TdhFormatProperty` call (null output buffer). -/
  fmtProbeStatus : EventRecord → FmtQuery → Nat
  /-- `UserDataConsumed` as written by the first `TdhFormatProperty` call. -/
  fmtProbeConsumed : EventRecord → FmtQuery → Nat
  /-- Status of the second `TdhFormatProperty` call (allocated buffer). -/
  fmtFillStatus : EventRecord → FmtQuery → Nat
  /-- The formatted wide string written by the second call. -/
  fmtFill : EventRecord → FmtQuery → String
  /-- `UserDataConsumed` as written by the second call. -/
  fmtFillConsumed : EventRecord → FmtQuery → Nat
  /-- Modelled from the spec: membership in `tdh.TDH_CONVERTER_LOOKUP`
  (the converter table lives in the missing `etw/tdh.py`). -/
  hasConverter : Nat → Bool
  /-- Modelled from the spec: the converter function for an output type. -/
  convert : Nat → PyVal → PyVal

/-! ### Small helpers -/

/-- `ct.c_ushort(i)` for a Python int `i` (two's-complement truncation). -/
def toUShort (i : Int) : Nat := (i % 65536).toNat

/-- ASCII lower-casing of one character (field names are ASCII). -/
def lowerChar (c : Char) : Char :=
  if 'A' ≤ c ∧ c ≤ 'Z' then Char.ofNat (c.toNat + 32) else c

/-- ASCII upper-casing of one character. -/
def upperChar (c : Char) : Char :=
  if 'a' ≤ c ∧ c ≤ 'z' then Char.ofNat (c.toNat - 32) else c

/-- Python `str.lower()` (ASCII). -/
def strLower (s : String) : String := String.mk (s.toList.map lowerChar)

/-- Python `str.upper()` (ASCII). -/
def strUpper (s : String) : String := String.mk (s.toList.map upperChar)

/-- Python whitespace as stripped by `str.strip()`. -/
def pyIsSpace (c : Char) : Bool :=
  c = ' ' ∨ c = '\t' ∨ c = '\n' ∨ c = '\r' ∨ c = '\x0b' ∨ c = '\x0c'

/-- Python `str.strip()`: remove leading and trailing whitespace. -/
def strStrip (s : String) : String :=
  String.mk (((s.toList.dropWhile pyIsSpace).reverse.dropWhile pyIsSpace).reverse)

/-- Python `str.endswith(t)`. -/
def strEndsWith (s t : String) : Bool :=
  decide (s.toList.reverse.take t.toList.length = t.toList.reverse)

/-- The `.value` of a `ct.c_char` array: the bytes up to the first NUL. -/
def cCharValue (b : List Nat) : List Nat := b.takeWhile (fun x => x ≠ 0)

/-- Digits-only parse used by `int(s, 10)`. -/
def pyDigits : List Char → Option Nat
  | [] => Option.none
  | l => if l.all (fun c => c.isDigit)
         then Option.some (l.foldl (fun a c => a * 10 + (c.toNat - 48)) 0)
         else Option.none

/-- Python `int(s, 10)` on a `str`: optional surrounding whitespace, optional
sign, decimal digits; `none` models the `ValueError` outcome. -/
def pyIntOfString (s : String) : Option Int :=
  match (strStrip s).toList with
  | '-' :: rest => (pyDigits rest).map (fun n => -(n : Int))
  | '+' :: rest => (pyDigits rest).map (fun n => (n : Int))
  | l => (pyDigits l).map (fun n => (n : Int))

/-- Python `int(b, 10)` on a `bytes` object (ASCII digits). -/
def pyIntOfBytes (b : List Nat) : Option Int :=
  pyIntOfString (String.mk (b.map Char.ofNat))

/-- Lines 517-522: `int(formatted_data.value, 10)` guarded by
`except ValueError`.  A parse failure on `str`/`bytes` is a `ValueError`,
caught by the source and turned into `None`; on a `None` value `int` raises
an uncaught `TypeError`. -/
def vfieldParse : PyVal → Except PyErr (Option Int)
  | PyVal.str s => Except.ok (pyIntOfString s)
  | PyVal.bytes b => Except.ok (pyIntOfBytes b)
  | _ => Except.error (PyErr.typeError "int argument must be a string or bytes")

/-- Python dict assignment `d[k] = v`: overwrite in place if the key exists,
else append (insertion order preserved). -/
def dictSet {α : Type} (d : List (String × α)) (k : String) (v : α) :
    List (String × α) :=
  if d.any (fun kv => kv.1 = k)
  then d.map (fun kv => if kv.1 = k then (k, v) else kv)
  else d ++ [(k, v)]

/-- Python `d.update(e)` for dicts modelled as association lists. -/
def dictUpdate {α : Type} (d e : List (String × α)) : List (String × α) :=
  e.foldl (fun a kv => dictSet a kv.1 kv.2) d

/-! ### `EventConsumer._getEventInformation` (lines 260-287) -/

/-- Outcome of `_getEventInformation`: a found block, the silent `None` for
`ERROR_NOT_FOUND`, or a never-filled null pointer (the probe call returned
success directly, so the `info` pointer stays null; the caller's later
`info.contents` dereference raises a ctypes `ValueError`). -/
inductive InfoResult where
  | noSchema
  | nullPtr
  | found (info : TraceEventInfo)

/-- Lines 260-287: probe `TdhGetEventInformation` for the needed size, refill
on `ERROR_INSUFFICIENT_BUFFER`, return `None` on `ERROR_NOT_FOUND`, raise
`ct.WinError()` on any other non-success status. -/
def getEventInformation (env : Env) (record : EventRecord) :
    Except PyErr InfoResult :=
  let st1 := env.eventInfoProbeStatus record
  let resStatus :=
    if st1 = ERROR_INSUFFICIENT_BUFFER
    then (InfoResult.found (env.eventInfo record), env.eventInfoFillStatus record)
    else (InfoResult.nullPtr, st1)
  if resStatus.2 = ERROR_NOT_FOUND then Except.ok InfoResult.noSchema
  else if resStatus.2 ≠ ERROR_SUCCESS then Except.error PyErr.winErrorLast
  else Except.ok resStatus.1

/-! ### `EventConsumer._getArraySize` (lines 289-324) -/

/-- Lines 289-324.  The `PropertyParamCount` branch builds its
`PROPERTY_DATA_DESCRIPTOR` with `info + event_property_array[j].NameOffset`
(line 309): `info` is a ctypes `POINTER(TRACE_EVENT_INFO)` instance and ctypes
pointers do not implement `+`, so this statement raises a `TypeError` before
any TDH call is made (contrast `_getPropertyLength` line 348, which first
casts the pointer to `c_voidp`).  The `PropertyParamFixedCount` branch raises
`ETWException`; otherwise the static `epi_u2.count` is returned. -/
def getArraySize (env : Env) (record : EventRecord) (info : TraceEventInfo)
    (prop : EventProperty) : Except PyErr Nat :=
  if prop.flags.paramCount then
    Except.error (PyErr.typeError "unsupported operand")
  else if prop.flags.paramFixedCount then
    Except.error (PyErr.etwException "PropertyParamFixedCount not supported")
  else
    Except.ok prop.count

/-! ### `EventConsumer._getPropertyLength` (lines 326-373) -/

/-- Lines 326-373: when `PropertyParamLength` is set, query the referenced
property's current size with `TdhGetPropertySize`/`TdhGetProperty` (the
referenced property is `event_property_array[epi_u3.length]`, addressed by
its name) and return that length, raising `ct.WinError()` on a non-success
status; otherwise a binary-input/IPv6-output field has the fixed
`sizeof(IN6_ADDR)` length, and any other field its static `epi_u3.length`.
The result is always an `int` in the source; the `some` wrapper mirrors the
caller's (dead) `is None` test. -/
def getPropertyLength (env : Env) (record : EventRecord)
    (info : TraceEventInfo) (prop : EventProperty) :
    Except PyErr (Option Int) :=
  if prop.flags.paramLength then
    let refName := info.strings ((info.props prop.length).nameOffset)
    if env.propSizeStatus record refName ≠ ERROR_SUCCESS then
      Except.error PyErr.winErrorLast
    else if env.propStatus record refName ≠ ERROR_SUCCESS then
      Except.error PyErr.winErrorLast
    else
      Except.ok (Option.some ((env.propValue record refName : Int)))
  else if prop.inType = TDH_INTYPE_BINARY ∧ prop.outType = TDH_OUTTYPE_IPV6 then
    Except.ok (Option.some (sizeof_IN6_ADDR : Int))
  else
    Except.ok (Option.some ((prop.length : Int)))

/-! ### `EventConsumer._getMapInfo` (lines 375-406) -/

/-- Lines 375-406: probe `TdhGetEventMapInformation` for the needed size,
refill on `ERROR_INSUFFICIENT_BUFFER`; a final `ERROR_SUCCESS` yields the map
pointer paired with `True`, `ERROR_NOT_FOUND` yields `(None, True)`, anything
else raises `ct.WinError()`.  When the probe succeeds directly the `map_info`
pointer is still null (`none`). -/
def getMapInfo (env : Env) (record : EventRecord) (info : TraceEventInfo)
    (prop : EventProperty) : Except PyErr (Option Nat × Bool) :=
  let mapName := info.strings prop.mapNameOffset
  let st1 := env.mapProbeStatus record mapName
  let miStatus :=
    if st1 = ERROR_INSUFFICIENT_BUFFER
    then ((Option.some (env.mapValue record mapName) : Option Nat),
          env.mapFillStatus record mapName)
    else ((Option.none : Option Nat), st1)
  if miStatus.2 = ERROR_SUCCESS then Except.ok (miStatus.1, true)
  else if miStatus.2 = ERROR_NOT_FOUND then Except.ok (Option.none, true)
  else Except.error PyErr.winErrorLast

/-! ### `EventConsumer._handleEvtInvalidEvtData` (lines 408-428) -/

/-- Lines 408-428: allocate a zero-initialized buffer of
`user_data_remaining + ct.sizeof(ct.c_wchar)` bytes, `memmove` the remaining
payload bytes into it (the two trailing zero bytes are the one wide-character
NUL terminator), and report `ct.c_ushort(user_data_remaining)` as the consumed
count. -/
def handleEvtInvalidEvtData (userData : List Nat) (userDataRemaining : Nat) :
    Nat × List Nat :=
  (userDataRemaining % 65536, userData.take userDataRemaining ++ [0, 0])

/-! ### `EventConsumer._unpackSimpleType` (lines 430-529) -/

/-- The `TdhFormatProperty` argument tuple assembled at lines 467-491:
map info, pointer size, input/output types, `ct.c_ushort(property_length)`,
the remaining byte count, and the payload bytes from the current offset. -/
def mkFmtQuery (record : EventRecord) (prop : EventProperty)
    (mapInfo : Option Nat) (ptrSize : Nat) (propertyLength : Int)
    (index : Nat) (remaining : Int) : FmtQuery :=
  { mapInfo := mapInfo
    pointerSize := ptrSize
    inType := prop.inType
    outType := prop.outType
    propertyLength := toUShort propertyLength
    userDataRemaining := remaining.toNat
    userData := record.payload.drop index }

/-- Lines 463-529 of `_unpackSimpleType`, from the point where the effective
`property_length` is known: compute the remaining byte count and return `{}`
when it is not positive; run the probe/fill `TdhFormatProperty` pair; on
`ERROR_EVT_INVALID_EVENT_DATA` recover via `_handleEvtInvalidEvtData`, on any
other non-success status raise `ct.WinError(status)`; advance `self.index`
by the consumed count; update `self.vfield_length` when the field name ends
in `"length"`; apply a `TDH_CONVERTER_LOOKUP` converter if one exists.
When the probe call succeeds directly (no `ERROR_INSUFFICIENT_BUFFER`), the
`formatted_data` `LPWSTR` is still null and its `.value` is Python `None`.
Line 468 adds `self.index` to the `UserData` pointer, raising a `TypeError`
when that pointer is `None`. -/
def unpackSimpleTypeFormat (env : Env) (record : EventRecord)
    (prop : EventProperty) (mapInfo : Option Nat) (nameField : String)
    (ptrSize : Nat) (propertyLength : Int) (s : ConsumerState) :
    Except PyErr (List (String × PyVal) × ConsumerState) :=
  match record.userData with
  | Option.none => Except.error (PyErr.typeError "unsupported operand")
  | Option.some _base =>
    let remaining : Int := (record.userDataLength : Int) - (s.index : Int)
    if remaining ≤ 0 then Except.ok ([], s)
    else
      let q := mkFmtQuery record prop mapInfo ptrSize propertyLength s.index remaining
      let st1 := env.fmtProbeStatus record q
      let stepOne :=
        if st1 = ERROR_INSUFFICIENT_BUFFER
        then (env.fmtFillStatus record q, PyVal.str (env.fmtFill record q),
              env.fmtFillConsumed record q % 65536)
        else (st1, PyVal.none, env.fmtProbeConsumed record q % 65536)
      let afterFmt : Except PyErr (Nat × PyVal) :=
        if stepOne.1 ≠ ERROR_SUCCESS then
          if stepOne.1 ≠ ERROR_EVT_INVALID_EVENT_DATA then
            Except.error (PyErr.winError stepOne.1)
          else
            let cb := handleEvtInvalidEvtData q.userData remaining.toNat
            Except.ok (cb.1, PyVal.bytes (cCharValue cb.2))
        else Except.ok (stepOne.2.2, stepOne.2.1)
      match afterFmt with
      | Except.error e => Except.error e
      | Except.ok (consumed, fval) =>
        let index2 := s.index + consumed
        let vfStep : Except PyErr (Option Int) :=
          if strEndsWith (strLower nameField) "length"
          then vfieldParse fval
          else Except.ok s.vfieldLength
        match vfStep with
        | Except.error e => Except.error e
        | Except.ok vf2 =>
          let data :=
            if env.hasConverter prop.outType
            then env.convert prop.outType fval
            else fval
          Except.ok ([(nameField, data)],
                     { index := index2, vfieldLength := vf2 })

/-- Lines 444-461 of `_unpackSimpleType`, after the map-info guard: resolve
the property length; a `None` length returns `{}` (dead branch, the resolver
always yields an int); select the 32/64-bit pointer size from the header
flags; read the field name; then the pending variable-length handling: when
the resolved length is `0` and `self.vfield_length` is set — a pending `0`
clears the slot and emits `{name: None}` consuming nothing, and any other
pending value is substituted as the effective length without clearing the
slot. -/
def unpackSimpleTypeCore (env : Env) (record : EventRecord)
    (info : TraceEventInfo) (prop : EventProperty) (mapInfo : Option Nat)
    (s : ConsumerState) :
    Except PyErr (List (String × PyVal) × ConsumerState) :=
  match getPropertyLength env record info prop with
  | Except.error e => Except.error e
  | Except.ok Option.none => Except.ok ([], s)
  | Except.ok (Option.some pl0) =>
    let ptrSize :=
      if record.header.flags &&& EVENT_HEADER_FLAG_32_BIT_HEADER ≠ 0
      then 4 else 8
    let nameField := info.strings prop.nameOffset
    match (if pl0 = 0 then s.vfieldLength else Option.none) with
    | Option.some v =>
      if v = 0 then
        Except.ok ([(nameField, PyVal.none)],
                   { index := s.index, vfieldLength := Option.none })
      else
        unpackSimpleTypeFormat env record prop mapInfo nameField ptrSize v s
    | Option.none =>
      unpackSimpleTypeFormat env record prop mapInfo nameField ptrSize pl0 s

/-- Lines 430-529: `_unpackSimpleType`.  First resolve the map info; the
source then returns `{}` when the reported success flag is false, and
otherwise proceeds with the body. -/
def unpackSimpleType (env : Env) (record : EventRecord)
    (info : TraceEventInfo) (prop : EventProperty) (s : ConsumerState) :
    Except PyErr (List (String × PyVal) × ConsumerState) :=
  match getMapInfo env record info prop with
  | Except.error e => Except.error e
  | Except.ok (mapInfo, success) =>
    if success = false then Except.ok ([], s)
    else unpackSimpleTypeCore env record info prop mapInfo s

/-- The body of `_unpackSimpleType` with the `if not success: return {}`
guard removed, stated after the spec's words that the guard is unreachable;
compared with `unpackSimpleType` below. -/
def unpackSimpleTypeNoMapGuard (env : Env) (record : EventRecord)
    (info : TraceEventInfo) (prop : EventProperty) (s : ConsumerState) :
    Except PyErr (List (String × PyVal) × ConsumerState) :=
  match getMapInfo env record info prop with
  | Except.error e => Except.error e
  | Except.ok (mapInfo, _success) =>
    unpackSimpleTypeCore env record info prop mapInfo s

/-! ### `EventConsumer._unpackComplexType` (lines 531-563) -/

/-- The inner member loop of `_unpackComplexType` (lines 551-561): for each
descriptor index `j` of the member range, call `_unpackSimpleType` and then
execute `key, value = <returned dict>`.  Iterating a Python dict yields its
keys, so the destructuring succeeds only when the dict has exactly two
entries — binding both names to the two KEYS — and raises a `ValueError`
otherwise (`_unpackSimpleType` returns dicts of size 0 or 1, so in practice
every iteration raises).  The subsequent `if key is None and value is None`
test compares strings against `None` and can never fire. -/
def structMembers (env : Env) (record : EventRecord) (info : TraceEventInfo) :
    List Nat → ConsumerState → List (String × PyVal) →
    Except PyErr (List (String × PyVal) × ConsumerState)
  | [], s, out => Except.ok (out, s)
  | j :: rest, s, out =>
    match unpackSimpleType env record info (info.props j) s with
    | Except.error e => Except.error e
    | Except.ok (d, s2) =>
      match d with
      | [kv1, kv2] =>
        structMembers env record info rest s2 (dictSet out kv1.1 (PyVal.str kv2.1))
      | _ => Except.error (PyErr.valueError "not enough values to unpack")

/-- The outer element loop of `_unpackComplexType` (line 547): one member
pass per array element, threading the accumulated dict and state. -/
def structElements (env : Env) (record : EventRecord) (info : TraceEventInfo)
    (memberIdxs : List Nat) :
    List Nat → ConsumerState → List (String × PyVal) →
    Except PyErr (List (String × PyVal) × ConsumerState)
  | [], s, out => Except.ok (out, s)
  | _i :: rest, s, out =>
    match structMembers env record info memberIdxs s out with
    | Except.error e => Except.error e
    | Except.ok (out2, s2) => structElements env record info memberIdxs rest s2 out2

/-- Lines 531-563: `_unpackComplexType`.  Resolve the array size (the
`is None` test on it is dead code — `_getArraySize` returns a count or
raises), then loop elements × members over the declared contiguous range
`[StructStartIndex, StructStartIndex + NumOfStructMembers)`. -/
def unpackComplexType (env : Env) (record : EventRecord)
    (info : TraceEventInfo) (prop : EventProperty) (s : ConsumerState) :
    Except PyErr (List (String × PyVal) × ConsumerState) :=
  match getArraySize env record info prop with
  | Except.error e => Except.error e
  | Except.ok arraySize =>
    let startIndex := prop.structStartIndex
    let memberIdxs := (List.range prop.numOfStructMembers).map (fun k => startIndex + k)
    structElements env record info memberIdxs (List.range arraySize) s []

/-! ### `EventConsumer._processEvent` (lines 565-650) -/

/-- Lines 579-585: the derived task name — the event's task-name string, or
the provider name when `TaskNameOffset` is the unset sentinel `0` — then
`strip().upper()`. -/
def taskNameOf (info : TraceEventInfo) : String :=
  strUpper (strStrip
    (if info.taskNameOffset = 0
     then info.strings info.providerNameOffset
     else info.strings info.taskNameOffset))

/-- Lines 599-618: the `EventHeader` sub-mapping built verbatim from the
record's fixed header. -/
def buildEventHeader (record : EventRecord) : OutVal :=
  OutVal.dict
    [("Size", OutVal.nat record.header.size),
     ("HeaderType", OutVal.nat record.header.headerType),
     ("Flags", OutVal.nat record.header.flags),
     ("EventProperty", OutVal.nat record.header.eventProperty),
     ("ThreadId", OutVal.nat record.header.threadId),
     ("ProcessId", OutVal.nat record.header.processId),
     ("TimeStamp", OutVal.int record.header.timeStamp),
     ("ProviderId", OutVal.str record.header.providerId),
     ("EventDescriptor", OutVal.dict
       [("Id", OutVal.nat record.header.eventDescriptor.id),
        ("Version", OutVal.nat record.header.eventDescriptor.version),
        ("Channel", OutVal.nat record.header.eventDescriptor.channel),
        ("Level", OutVal.nat record.header.eventDescriptor.level),
        ("Opcode", OutVal.nat record.header.eventDescriptor.opcode),
        ("Task", OutVal.nat record.header.eventDescriptor.task),
        ("Keyword", OutVal.nat record.header.eventDescriptor.keyword)]),
     ("KernelTime", OutVal.nat record.header.kernelTime),
     ("UserTime", OutVal.nat record.header.userTime),
     ("ActivityId", OutVal.str record.header.activityId)]

/-- The top-level field loop of `_processEvent` (lines 629-640).  `userData0`
and `endOfUserData` are the loop's two pointer values: both are computed once
before the loop and never changed inside it, so the `break` comparison is a
constant condition (true exactly when `UserDataLength` is `0`).  Each field
is dispatched on the `PropertyStruct` flag and its resulting dict merged with
`out.update(...)`. -/
def processFields (env : Env) (record : EventRecord) (info : TraceEventInfo)
    (userData0 endOfUserData : Nat) :
    List Nat → ConsumerState → Dict → Except PyErr (ConsumerState × Dict)
  | [], s, out => Except.ok (s, out)
  | i :: rest, s, out =>
    if userData0 = endOfUserData then Except.ok (s, out)
    else
      let prop := info.props i
      if prop.flags.propertyStruct then
        match unpackComplexType env record info prop s with
        | Except.error e => Except.error e
        | Except.ok (d, s2) =>
          processFields env record info userData0 endOfUserData rest s2
            (dictUpdate out (d.map (fun kv => (kv.1, OutVal.py kv.2))))
      else
        match unpackSimpleType env record info prop s with
        | Except.error e => Except.error e
        | Except.ok (d, s2) =>
          processFields env record info userData0 endOfUserData rest s2
            (dictUpdate out (d.map (fun kv => (kv.1, OutVal.py kv.2))))

/-- Lines 565-650: `_processEvent`.  Resolve the metadata (silently skipping
on `NotFound`), derive and normalize the task name, apply the task-name
filter before any payload work, build the `EventHeader` sub-mapping, reset
`self.index`/`self.vfield_length`, run the field loop, append `Description`
and `Task Name`, and deliver `(event_id, out)` to the callback.  The result
pairs the value handed to the callback (`none` when the callback is never
invoked) with the consumer's final mutable state (which the early returns
leave untouched, as they happen before the reset at lines 625-626). -/
def processEvent (env : Env) (record : EventRecord) (filters : List String)
    (s : ConsumerState) :
    Except PyErr (Option (Nat × Dict) × ConsumerState) :=
  match getEventInformation env record with
  | Except.error e => Except.error e
  | Except.ok InfoResult.noSchema => Except.ok (Option.none, s)
  | Except.ok InfoResult.nullPtr =>
    Except.error (PyErr.valueError "NULL pointer access")
  | Except.ok (InfoResult.found info) =>
    let taskName := taskNameOf info
    let description := info.strings info.eventMessageOffset
    let eventId := info.eventDescriptorId
    if filters ≠ [] ∧ taskName ∉ filters then Except.ok (Option.none, s)
    else
      let out0 : Dict := [("EventHeader", buildEventHeader record)]
      let userData0 := match record.userData with
        | Option.none => 0
        | Option.some p => p
      let endOfUserData := userData0 + record.userDataLength
      match processFields env record info userData0 endOfUserData
          (List.range info.topLevelPropertyCount)
          { index := 0, vfieldLength := Option.none } out0 with
      | Except.error e => Except.error e
      | Except.ok (s2, out1) =>
        let out2 := dictSet (dictSet out1 "Description" (OutVal.str description))
          "Task Name" (OutVal.str taskName)
        Except.ok (Option.some (eventId, out2), s2)

/-- The decode outcome as observable through the callback: the payload part
of the `_processEvent` result, discarding the persistent consumer state. -/
def decodeOutput (r : Except PyErr (Option (Nat × Dict) × ConsumerState)) :
    Except PyErr (Option (Nat × Dict)) :=
  r.map Prod.fst

/-! ### Concrete fixtures used by witnesses and counterexamples -/

/-- A header with no 32-bit flag. -/
def headerA : EventHeader :=
  { size := 64, headerType := 0, flags := 0, eventProperty := 0,
    threadId := 11, processId := 22, timeStamp := 33, providerId := "GUID-P",
    eventDescriptor :=
      { id := 7, version := 1, channel := 2, level := 4, opcode := 0,
        task := 3, keyword := 5 },
    kernelTime := 1, userTime := 2, activityId := "GUID-A" }

/-- A record with a four-byte payload. -/
def recA : EventRecord :=
  { header := headerA, userData := Option.some 4096, userDataLength := 4,
    payload := [65, 66, 67, 68] }

def flagsNone : PropFlags :=
  { propertyStruct := false, paramLength := false, paramCount := false,
    paramFixedCount := false }

/-- A plain scalar property: name at string offset `n`, map name at offset
`m`, static length `l`. -/
def mkScalarProp (n m l : Nat) : EventProperty :=
  { nameOffset := n, flags := flagsNone, inType := 1, outType := 1,
    mapNameOffset := m, structStartIndex := 0, numOfStructMembers := 0,
    countPropertyIndex := 0, count := 0, length := l }

/-- String table used by the fixture info blocks. -/
def stringsA (n : Nat) : String :=
  if n = 1 then "Prov"
  else if n = 2 then " tAsk "
  else if n = 3 then "Desc"
  else if n = 20 then "FieldA"
  else if n = 21 then "FieldB"
  else if n = 22 then "FieldC"
  else if n = 23 then "FooLength"
  else "S" ++ Nat.repr n

/-- A metadata block with one scalar field (name `FieldA`, map name `S10`,
static length 4). -/
def infoA : TraceEventInfo :=
  { providerNameOffset := 1, taskNameOffset := 2, eventMessageOffset := 3,
    eventDescriptorId := 9, topLevelPropertyCount := 1,
    props := fun _ => mkScalarProp 20 10 4, strings := stringsA }

/-- A benign environment: event info and map queries follow the two-call
protocol, `TdhFormatProperty` probes report `ERROR_INSUFFICIENT_BUFFER`, the
fill succeeds with value `"V"` and consumes the declared property length, and
no converters exist. -/
def envA : Env :=
  { eventInfoProbeStatus := fun _ => ERROR_INSUFFICIENT_BUFFER
    eventInfoFillStatus := fun _ => ERROR_SUCCESS
    eventInfo := fun _ => infoA
    mapProbeStatus := fun _ _ => ERROR_NOT_FOUND
    mapFillStatus := fun _ _ => ERROR_SUCCESS
    mapValue := fun _ _ => 77
    propSizeStatus := fun _ _ => ERROR_SUCCESS
    propStatus := fun _ _ => ERROR_SUCCESS
    propValue := fun _ _ => 7
    fmtProbeStatus := fun _ _ => ERROR_INSUFFICIENT_BUFFER
    fmtProbeConsumed := fun _ _ => 0
    fmtFillStatus := fun _ _ => ERROR_SUCCESS
    fmtFill := fun _ _ => "V"
    fmtFillConsumed := fun _ q => q.propertyLength
    hasConverter := fun _ => false
    convert := fun _ v => v }

/-- C5 fixture: a binary-input/IPv6-output field whose
`PropertyParamLength` flag is set (the claim asserts the 16-byte override
applies even then). -/
def propIPv6Ref : EventProperty :=
  { nameOffset := 20, flags :=
      { propertyStruct := false, paramLength := true, paramCount := false,
        paramFixedCount := false },
    inType := TDH_INTYPE_BINARY, outType := TDH_OUTTYPE_IPV6,
    mapNameOffset := 10, structStartIndex := 0, numOfStructMembers := 0,
    countPropertyIndex := 0, count := 0, length := 0 }

/-- C7 fixture: both `PropertyParamCount` and `PropertyParamFixedCount` flag
bits set. -/
def propBothCountFlags : EventProperty :=
  { nameOffset := 20, flags :=
      { propertyStruct := false, paramLength := false, paramCount := true,
        paramFixedCount := true },
    inType := 1, outType := 1, mapNameOffset := 10, structStartIndex := 0,
    numOfStructMembers := 0, countPropertyIndex := 1, count := 6, length := 4 }

/-- C2 fixture: a structure-typed field with resolved element count 3 and
member range `[1, 3)` (two members) of the shared descriptor sequence. -/
def propStructC2 : EventProperty :=
  { nameOffset := 20, flags :=
      { propertyStruct := true, paramLength := false, paramCount := false,
        paramFixedCount := false },
    inType := 1, outType := 1, mapNameOffset := 10, structStartIndex := 1,
    numOfStructMembers := 2, countPropertyIndex := 0, count := 3, length := 0 }

/-- C2 fixture: descriptor sequence with the structure at index 0 and its two
scalar members at indices 1 and 2. -/
def infoC2 : TraceEventInfo :=
  { providerNameOffset := 1, taskNameOffset := 2, eventMessageOffset := 3,
    eventDescriptorId := 9, topLevelPropertyCount := 1,
    props := fun i =>
      if i = 0 then propStructC2
      else if i = 1 then mkScalarProp 21 10 1
      else mkScalarProp 22 10 1,
    strings := stringsA }

/-- C3/C4 fixture: a scalar field named `FieldB` (no `length` suffix) with
declared static length 0. -/
def propVar0 : EventProperty := mkScalarProp 21 10 0

/-- C1 fixture: three scalar fields; field 0 consumes the whole 4-byte
payload, field 1 is then decoded with zero bytes remaining, and field 2 has
a map whose probe reports a fatal status. -/
def infoC1 : TraceEventInfo :=
  { providerNameOffset := 1, taskNameOffset := 2, eventMessageOffset := 3,
    eventDescriptorId := 9, topLevelPropertyCount := 3,
    props := fun i =>
      if i = 0 then mkScalarProp 20 10 4
      else if i = 1 then mkScalarProp 21 11 2
      else mkScalarProp 22 12 2,
    strings := stringsA }

/-- C1 fixture environment: like `envA`, but the map probe for field 2's map
name reports the fatal status 5. -/
def envC1 : Env :=
  { envA with
    eventInfo := fun _ => infoC1
    mapProbeStatus := fun _ name =>
      if name = "S12" then 5 else ERROR_NOT_FOUND }

/-! ### Helper lemmas -/

instance {ε α : Type} [DecidableEq ε] [DecidableEq α] :
    DecidableEq (Except ε α) := fun a b =>
  match a, b with
  | Except.ok x, Except.ok y =>
    if h : x = y then isTrue (by rw [h]) else isFalse (by intro hc; cases hc; exact h rfl)
  | Except.error x, Except.error y =>
    if h : x = y then isTrue (by rw [h]) else isFalse (by intro hc; cases hc; exact h rfl)
  | Except.ok _, Except.error _ => isFalse (by intro hc; cases hc)
  | Except.error _, Except.ok _ => isFalse (by intro hc; cases hc)

/-- Every non-raising `_getMapInfo` call reports success flag `True`. -/
theorem getMapInfo_flag_true (env : Env) (record : EventRecord)
    (info : TraceEventInfo) (prop : EventProperty) (res : Option Nat × Bool)
    (h : getMapInfo env record info prop = Except.ok res) : res.2 = true := by
  simp only [getMapInfo] at h
  repeat' split at h
  all_goals first
  | (cases h; rfl)
  | cases h

/-- The map-info success guard of `_unpackSimpleType` never fires. -/
theorem unpackSimpleType_eq_noMapGuard (env : Env) (record : EventRecord)
    (info : TraceEventInfo) (prop : EventProperty) (s : ConsumerState) :
    unpackSimpleType env record info prop s =
      unpackSimpleTypeNoMapGuard env record info prop s := by
  unfold unpackSimpleType unpackSimpleTypeNoMapGuard
  cases h : getMapInfo env record info prop with
  | error e => rfl
  | ok res =>
    obtain ⟨mi, b⟩ := res
    have hb : b = true := getMapInfo_flag_true env record info prop (mi, b) h
    subst hb
    simp

/-- The payload delivered to the callback does not depend on the consumer
state left over from previous records: `_processEvent` resets
`self.index`/`self.vfield_length` before reading them. -/
theorem processEvent_state_irrel (env : Env) (record : EventRecord)
    (filters : List String) (s1 s2 : ConsumerState) :
    decodeOutput (processEvent env record filters s1) =
      decodeOutput (processEvent env record filters s2) := by
  unfold processEvent
  cases getEventInformation env record with
  | error e => rfl
  | ok r =>
    cases r with
    | noSchema => rfl
    | nullPtr => rfl
    | found info =>
      simp only
      split
      · rfl
      · rfl

/-- The absent-field case of `_unpackSimpleType`: resolved length `0` with a
pending `0` emits `{name: None}`, consumes nothing, and clears the pending
slot. -/
theorem unpack_absent_case (env : Env) (record : EventRecord)
    (info : TraceEventInfo) (prop : EventProperty) (s : ConsumerState)
    (mi : Option Nat)
    (hm : getMapInfo env record info prop = Except.ok (mi, true))
    (hl : getPropertyLength env record info prop = Except.ok (Option.some 0))
    (hv : s.vfieldLength = Option.some 0) :
    unpackSimpleType env record info prop s =
      Except.ok ([(info.strings prop.nameOffset, PyVal.none)],
        { index := s.index, vfieldLength := Option.none }) := by
  unfold unpackSimpleType
  rw [hm]
  simp only [Bool.true_eq_false, if_false]
  unfold unpackSimpleTypeCore
  rw [hl]
  simp [hv]

/-! ### Claim C10 -/

/-- C10: map-info resolution never reports failure through its success flag —
every non-raising `_getMapInfo` call yields `(pointer, True)` or
`(None, True)` — and consequently the `if not success: return {}` branch of
`_unpackSimpleType` is unreachable: the decoder is extensionally equal to the
same body with the guard removed. -/
theorem C10_mapinfo_flag :
    (∀ (env : Env) (record : EventRecord) (info : TraceEventInfo)
       (prop : EventProperty) (res : Option Nat × Bool),
       getMapInfo env record info prop = Except.ok res → res.2 = true) ∧
    (∀ (env : Env) (record : EventRecord) (info : TraceEventInfo)
       (prop : EventProperty) (s : ConsumerState),
       unpackSimpleType env record info prop s =
         unpackSimpleTypeNoMapGuard env record info prop s) :=
  ⟨getMapInfo_flag_true, unpackSimpleType_eq_noMapGuard⟩

/-- Witness for C10 at a concrete input: the fixture environment resolves the
map of the fixture field to `(None, True)`, whose flag is `true`. -/
theorem C10_mapinfo_flag_witness :
    getMapInfo envA recA infoA (mkScalarProp 20 10 4) =
      Except.ok ((Option.none : Option Nat), true) ∧
    ((Option.none : Option Nat), true).2 = true :=
  ⟨by decide,
   C10_mapinfo_flag.1 envA recA infoA (mkScalarProp 20 10 4)
     ((Option.none : Option Nat), true) (by decide)⟩

/-! ### Claim C5 -/

/-- C5 (counterexample): with the length-is-field-reference flag set, the
binary/IPv6 field's length resolves to the referenced value 7, not to the
fixed 16 the claim requires. -/
theorem C5_counterexample :
    getPropertyLength envA recA infoA propIPv6Ref =
      Except.ok (Option.some (7 : Int)) ∧
    getPropertyLength envA recA infoA propIPv6Ref ≠
      Except.ok (Option.some (16 : Int)) := by
  constructor
  · decide
  · decide

/-- C5 (amended): for every field with binary input type and IPv6 output
type whose `PropertyParamLength` flag is NOT set, length resolution returns
the fixed size 16 (`sizeof(IN6_ADDR)`) regardless of the declared static
length and of the remaining flag bits; when the length-is-field-reference
flag is set, that branch takes precedence instead. -/
theorem C5_ipv6_fixed_size (env : Env) (record : EventRecord)
    (info : TraceEventInfo) (prop : EventProperty)
    (hf : prop.flags.paramLength = false)
    (hin : prop.inType = TDH_INTYPE_BINARY)
    (hout : prop.outType = TDH_OUTTYPE_IPV6) :
    getPropertyLength env record info prop =
      Except.ok (Option.some (16 : Int)) := by
  unfold getPropertyLength
  rw [hf]
  simp [hin, hout, sizeof_IN6_ADDR]

/-- Witness for C5 at a concrete input: a binary/IPv6 field with declared
static length 3 and no length-reference flag resolves to 16. -/
theorem C5_ipv6_fixed_size_witness :
    getPropertyLength envA recA infoA
      { propIPv6Ref with flags := flagsNone, length := 3 } =
      Except.ok (Option.some (16 : Int)) :=
  C5_ipv6_fixed_size envA recA infoA
    { propIPv6Ref with flags := flagsNone, length := 3 }
    (by decide) (by decide) (by decide)

/-! ### Claim C7 -/

/-- C7 (counterexample): a field flagged fixed-count-by-reference whose
count-is-field-reference flag is ALSO set does not signal the
`ETWException`: the `PropertyParamCount` branch runs first, and its ctypes
pointer addition (line 309) raises a `TypeError` — a generic fatal error —
so the claim's universal statement fails. -/
theorem C7_counterexample :
    getArraySize envA recA infoA propBothCountFlags =
      Except.error (PyErr.typeError "unsupported operand") ∧
    getArraySize envA recA infoA propBothCountFlags ≠
      Except.error (PyErr.etwException "PropertyParamFixedCount not supported") := by
  constructor
  · decide
  · decide

/-- C7 (amended): every field flagged fixed-count-by-reference whose
count-is-field-reference flag is not also set makes `_getArraySize` signal
the permanent unsupported-feature `ETWException` — never a `ct.WinError` and
never a silent skip; when both flags are set the count-by-reference branch
takes precedence. -/
theorem C7_fixed_count_unsupported (env : Env) (record : EventRecord)
    (info : TraceEventInfo) (prop : EventProperty)
    (hc : prop.flags.paramCount = false)
    (hf : prop.flags.paramFixedCount = true) :
    getArraySize env record info prop =
      Except.error (PyErr.etwException "PropertyParamFixedCount not supported") := by
  unfold getArraySize
  rw [hc, hf]
  simp

/-! ### Claim C2 -/

/-- Every `_unpackSimpleType` result dict has at most one entry. -/
theorem unpackSimpleType_length_le_one (env : Env) (record : EventRecord)
    (info : TraceEventInfo) (prop : EventProperty) (s : ConsumerState)
    (d : List (String × PyVal)) (s2 : ConsumerState)
    (h : unpackSimpleType env record info prop s = Except.ok (d, s2)) :
    d.length ≤ 1 := by
  simp only [unpackSimpleType, unpackSimpleTypeCore, unpackSimpleTypeFormat] at h
  repeat' split at h
  all_goals cases h
  all_goals simp

/-- C2 (code bug, evaluated at the failing input): on a structure field with
element count 3 and member range length 2, `_unpackComplexType` raises
`ValueError` at the very first (element 0, member 1) pair.  The statement
`key, value = self._unpackSimpleType(...)` (line 557) destructures the dict
returned by `_unpackSimpleType` — a dict of size 0 or 1, whose iteration
yields its keys — so the two-name unpacking always fails; the documented
flat merged mapping of up to 6 entries is never produced. -/
theorem C2_struct_valueerror :
    unpackComplexType envA recA infoC2 propStructC2
        { index := 0, vfieldLength := Option.none } =
      Except.error (PyErr.valueError "not enough values to unpack") := by
  rfl

/-! ### Claim C3 -/

/-- C3 (counterexample): consuming a positive pending variable-length value
does NOT clear the single-slot state.  With pending value 5 and resolved
length 0, the field decodes using byte length 5, and after the decode
`self.vfield_length` is still `5` (not `None`) — the slot is not empty
before the next field is decoded, contradicting the claim. -/
theorem C3_counterexample :
    unpackSimpleType envA recA infoA propVar0
        { index := 0, vfieldLength := Option.some 5 } =
      Except.ok ([("FieldB", PyVal.str "V")],
        { index := 5, vfieldLength := Option.some 5 }) := by
  rfl

/-- The positive-substitute case of `_unpackSimpleType` leaves the pending
slot untouched whenever the consuming field's own name does not end in
`length`. -/
theorem unpack_substitute_keeps_pending (env : Env) (record : EventRecord)
    (info : TraceEventInfo) (prop : EventProperty) (s : ConsumerState)
    (v : Int)
    (hs : s.vfieldLength = Option.some v) (hv : v ≠ 0)
    (hl : getPropertyLength env record info prop = Except.ok (Option.some 0))
    (hn : strEndsWith (strLower (info.strings prop.nameOffset)) "length" = false)
    (d : List (String × PyVal)) (s2 : ConsumerState)
    (h : unpackSimpleType env record info prop s = Except.ok (d, s2)) :
    s2.vfieldLength = Option.some v := by
  simp only [unpackSimpleType, unpackSimpleTypeCore, unpackSimpleTypeFormat,
    hl, hs, hn] at h
  repeat' split at h
  all_goals (try cases h)
  all_goals simp_all

/-- C3 (amended): the pending variable-length slot is reset to `None` at the
start of every record decode (the delivered payload is independent of any
state left by earlier records) and is cleared when consumed as the
zero/Absent case; but when consumed as a positive substitute byte length it
is NOT cleared — the value persists into the next field's decode unless the
consuming field's own name ends in `length` (which overwrites the slot with
that field's parsed value). -/
theorem C3_pending_slot :
    (∀ (env : Env) (record : EventRecord) (filters : List String)
       (s1 s2 : ConsumerState),
       decodeOutput (processEvent env record filters s1) =
         decodeOutput (processEvent env record filters s2)) ∧
    (∀ (env : Env) (record : EventRecord) (info : TraceEventInfo)
       (prop : EventProperty) (s : ConsumerState) (mi : Option Nat),
       getMapInfo env record info prop = Except.ok (mi, true) →
       getPropertyLength env record info prop = Except.ok (Option.some 0) →
       s.vfieldLength = Option.some 0 →
       unpackSimpleType env record info prop s =
         Except.ok ([(info.strings prop.nameOffset, PyVal.none)],
           { index := s.index, vfieldLength := Option.none })) ∧
    (∀ (env : Env) (record : EventRecord) (info : TraceEventInfo)
       (prop : EventProperty) (s : ConsumerState) (v : Int),
       s.vfieldLength = Option.some v → v ≠ 0 →
       getPropertyLength env record info prop = Except.ok (Option.some 0) →
       strEndsWith (strLower (info.strings prop.nameOffset)) "length" = false →
       ∀ (d : List (String × PyVal)) (s2 : ConsumerState),
         unpackSimpleType env record info prop s = Except.ok (d, s2) →
         s2.vfieldLength = Option.some v) :=
  ⟨processEvent_state_irrel,
   fun env record info prop s mi hm hl hv =>
     unpack_absent_case env record info prop s mi hm hl hv,
   fun env record info prop s v hs hv hl hn d s2 h =>
     unpack_substitute_keeps_pending env record info prop s v hs hv hl hn d s2 h⟩

/-- Witness for C3 at concrete inputs: the absent case clears the slot, and
the positive-substitute case (pending 5, field `FieldB`) leaves it at `5`. -/
theorem C3_pending_slot_witness :
    getPropertyLength envA recA infoA propVar0 = Except.ok (Option.some 0) ∧
    unpackSimpleType envA recA infoA propVar0
        { index := 2, vfieldLength := Option.some 0 } =
      Except.ok ([("FieldB", PyVal.none)],
        { index := 2, vfieldLength := Option.none }) ∧
    (ConsumerState.mk 5 (Option.some 5)).vfieldLength = Option.some 5 :=
  ⟨rfl,
   C3_pending_slot.2.1 envA recA infoA propVar0
     { index := 2, vfieldLength := Option.some 0 } Option.none rfl rfl rfl,
   C3_pending_slot.2.2 envA recA infoA propVar0
     { index := 0, vfieldLength := Option.some 5 } 5 rfl (by decide) rfl
     (by decide) [("FieldB", PyVal.str "V")]
     { index := 5, vfieldLength := Option.some 5 } rfl⟩

/-! ### Claim C1 -/

/-- The remaining-bytes check of `_unpackSimpleType` (lines 468-473): with no
unread payload bytes left, the decoder returns `{}` untouched. -/
theorem format_skip (env : Env) (record : EventRecord) (prop : EventProperty)
    (mi : Option Nat) (nameField : String) (ptr : Nat) (pl : Int)
    (s : ConsumerState) (base : Nat)
    (hud : record.userData = Option.some base)
    (hrem : record.userDataLength ≤ s.index) :
    unpackSimpleTypeFormat env record prop mi nameField ptr pl s =
      Except.ok ([], s) := by
  have h : (record.userDataLength : Int) - (s.index : Int) ≤ 0 := by omega
  unfold unpackSimpleTypeFormat
  rw [hud]
  dsimp only
  rw [if_pos h]

/-- `_unpackSimpleType` on an exhausted payload: provided the decode reaches
the remaining-bytes check (the pending-zero/Absent case returns earlier and
is excluded), it returns `{}` without consuming bytes or changing state. -/
theorem unpack_skip_exhausted (env : Env) (record : EventRecord)
    (info : TraceEventInfo) (prop : EventProperty) (s : ConsumerState)
    (base : Nat) (mval : Option Nat × Bool) (lval : Option Int)
    (hud : record.userData = Option.some base)
    (hm : getMapInfo env record info prop = Except.ok mval)
    (hl : getPropertyLength env record info prop = Except.ok lval)
    (hnz : ¬(lval = Option.some 0 ∧ s.vfieldLength = Option.some 0))
    (hrem : record.userDataLength ≤ s.index) :
    unpackSimpleType env record info prop s = Except.ok ([], s) := by
  obtain ⟨mi, b⟩ := mval
  have hb : b = true := getMapInfo_flag_true env record info prop (mi, b) hm
  subst hb
  unfold unpackSimpleType
  rw [hm]
  simp only [Bool.true_eq_false, if_false]
  unfold unpackSimpleTypeCore
  rw [hl]
  cases lval with
  | none => rfl
  | some pl0 =>
    dsimp only
    cases hp : (if pl0 = 0 then s.vfieldLength else Option.none) with
    | none => exact format_skip env record prop mi _ _ pl0 s base hud hrem
    | some v =>
      have hv0 : pl0 = 0 ∧ s.vfieldLength = Option.some v := by
        by_cases hz : pl0 = 0
        · rw [if_pos hz] at hp; exact ⟨hz, hp⟩
        · rw [if_neg hz] at hp; cases hp
      have hvne : ¬v = 0 := by
        intro h0
        exact hnz ⟨by rw [hv0.1], by rw [hv0.2, h0]⟩
      dsimp only
      rw [if_neg hvne]
      exact format_skip env record prop mi _ _ v s base hud hrem

/-- The field loop of `_processEvent` keeps iterating after a skip: when the
loop's pointer comparison is false (nonempty payload) and every listed field
is a scalar that skips cleanly, every field is still visited (each one
re-running its map and length resolution) and the accumulated output and
state come back unchanged. -/
theorem processFields_all_skip (env : Env) (record : EventRecord)
    (info : TraceEventInfo) (ud ed : Nat) (js : List Nat) (s : ConsumerState)
    (out : Dict)
    (hne : ud ≠ ed)
    (hall : ∀ j ∈ js, (info.props j).flags.propertyStruct = false ∧
      unpackSimpleType env record info (info.props j) s = Except.ok ([], s)) :
    processFields env record info ud ed js s out = Except.ok (s, out) := by
  induction js generalizing out with
  | nil => rfl
  | cons j rest ih =>
    obtain ⟨h1, h2⟩ := hall j (List.mem_cons_self j rest)
    unfold processFields
    rw [if_neg hne]
    dsimp only
    rw [h1]
    simp only [Bool.false_eq_true, if_false]
    rw [h2]
    dsimp only
    simp only [List.map_nil, dictUpdate, List.foldl_nil]
    exact ih _ (fun j hj => hall j (List.mem_cons_of_mem _ hj))

/-- C1 counterexample run: on the three-field fixture, field 0 consumes the
whole payload and field 1 skips with zero bytes remaining; the Record
Decoder then still processes field 2, whose map-info probe reports a fatal
status, so the whole decode raises `ct.WinError()` instead of returning the
partial output. -/
theorem C1_counterexample :
    processEvent envC1 recA []
        { index := 0, vfieldLength := Option.none } =
      Except.error PyErr.winErrorLast := by
  rfl

/-- C1 (amended): when the remaining unread payload byte count is zero or
negative, the scalar decoder returns Skip (an empty result) without
consuming any bytes and without treating the condition as an error — for
every field decode that reaches the remaining-bytes check (the pending-zero
Absent case returns a pair earlier).  The Record Decoder, however, does NOT
stop: its loop early-exit compares the never-updated user-data base pointer
with the end pointer, so it keeps invoking the decoder on every remaining
field; each remaining scalar field re-runs its map-info and length
resolution and again returns Skip, so when those resolver calls succeed the
final output equals the partial output. -/
theorem C1_skip_and_continue :
    (∀ (env : Env) (record : EventRecord) (info : TraceEventInfo)
       (prop : EventProperty) (s : ConsumerState) (base : Nat)
       (mval : Option Nat × Bool) (lval : Option Int),
       record.userData = Option.some base →
       getMapInfo env record info prop = Except.ok mval →
       getPropertyLength env record info prop = Except.ok lval →
       ¬(lval = Option.some 0 ∧ s.vfieldLength = Option.some 0) →
       record.userDataLength ≤ s.index →
       unpackSimpleType env record info prop s = Except.ok ([], s)) ∧
    (∀ (env : Env) (record : EventRecord) (info : TraceEventInfo)
       (ud ed : Nat) (js : List Nat) (s : ConsumerState) (out : Dict),
       ud ≠ ed →
       (∀ j ∈ js, (info.props j).flags.propertyStruct = false ∧
         unpackSimpleType env record info (info.props j) s = Except.ok ([], s)) →
       processFields env record info ud ed js s out = Except.ok (s, out)) :=
  ⟨fun env record info prop s base mval lval hud hm hl hnz hrem =>
     unpack_skip_exhausted env record info prop s base mval lval hud hm hl hnz hrem,
   fun env record info ud ed js s out hne hall =>
     processFields_all_skip env record info ud ed js s out hne hall⟩

/-- Witness for C1 at concrete inputs: field 1 of the fixture skips with the
cursor at the end of the payload, and the loop over the remaining field list
`[1]` returns the accumulated output unchanged while still visiting the
field. -/
theorem C1_skip_and_continue_witness :
    unpackSimpleType envC1 recA infoC1 (mkScalarProp 21 11 2)
        { index := 4, vfieldLength := Option.none } =
      Except.ok ([], { index := 4, vfieldLength := Option.none }) ∧
    processFields envC1 recA infoC1 4096 4100 [1]
        { index := 4, vfieldLength := Option.none } [] =
      Except.ok ({ index := 4, vfieldLength := Option.none }, []) :=
  ⟨C1_skip_and_continue.1 envC1 recA infoC1 (mkScalarProp 21 11 2)
     { index := 4, vfieldLength := Option.none } 4096
     (Option.none, true) (Option.some 2) rfl rfl rfl (by decide) (by decide),
   C1_skip_and_continue.2 envC1 recA infoC1 4096 4100 [1]
     { index := 4, vfieldLength := Option.none } [] (by decide)
     (fun j hj => by
       rcases List.mem_singleton.mp hj with rfl
       exact ⟨rfl, rfl⟩)⟩

/-! ### Claim C4 -/

/-- Substituting a positive pending value: decoding a field whose resolved
length is `0` while the pending slot holds `n > 0` is identical to decoding
the same field statically declared with length `n` — the pending value fully
replaces the declared length. -/
theorem unpack_substitute_length (env : Env) (record : EventRecord)
    (info : TraceEventInfo) (prop : EventProperty) (s : ConsumerState) (n : Nat)
    (hf : prop.flags.paramLength = false)
    (hio : ¬(prop.inType = TDH_INTYPE_BINARY ∧ prop.outType = TDH_OUTTYPE_IPV6))
    (hl0 : prop.length = 0)
    (hs : s.vfieldLength = Option.some (n : Int))
    (hn : 0 < n) :
    unpackSimpleType env record info prop s =
      unpackSimpleType env record info { prop with length := n } s := by
  obtain ⟨m, rfl⟩ : ∃ m, n = m + 1 := ⟨n - 1, by omega⟩
  have hm : getMapInfo env record info { prop with length := m + 1 } =
      getMapInfo env record info prop := rfl
  have h1 : getPropertyLength env record info prop =
      Except.ok (Option.some 0) := by
    unfold getPropertyLength
    rw [hf]
    simp [hio, hl0]
  have h2 : getPropertyLength env record info { prop with length := m + 1 } =
      Except.ok (Option.some ((m + 1 : Nat) : Int)) := by
    unfold getPropertyLength
    simp [hf, hio]
  have hnz : ((m + 1 : Nat) : Int) ≠ 0 := by omega
  unfold unpackSimpleType
  rw [hm]
  cases hgm : getMapInfo env record info prop with
  | error e => rfl
  | ok res =>
    obtain ⟨mi, b⟩ := res
    cases b with
    | false => rfl
    | true =>
      simp only [Bool.true_eq_false, if_false]
      unfold unpackSimpleTypeCore
      rw [h1, h2]
      simp only [hs, hnz, if_pos rfl, if_neg hnz]
      rfl

/-- C4: a scalar field with resolved byte length 0 and a pending
variable-length value: a pending `0` makes the decoder emit
`(name, Absent/None)` consuming zero payload bytes; a pending positive `n`
makes the decoder format the field exactly as if its declared byte length
were `n` (the declared static length 0 is replaced). -/
theorem C4_pending_length :
    (∀ (env : Env) (record : EventRecord) (info : TraceEventInfo)
       (prop : EventProperty) (s : ConsumerState) (mi : Option Nat),
       getMapInfo env record info prop = Except.ok (mi, true) →
       getPropertyLength env record info prop = Except.ok (Option.some 0) →
       s.vfieldLength = Option.some 0 →
       unpackSimpleType env record info prop s =
         Except.ok ([(info.strings prop.nameOffset, PyVal.none)],
           { index := s.index, vfieldLength := Option.none })) ∧
    (∀ (env : Env) (record : EventRecord) (info : TraceEventInfo)
       (prop : EventProperty) (s : ConsumerState) (n : Nat),
       prop.flags.paramLength = false →
       ¬(prop.inType = TDH_INTYPE_BINARY ∧ prop.outType = TDH_OUTTYPE_IPV6) →
       prop.length = 0 →
       s.vfieldLength = Option.some (n : Int) →
       0 < n →
       unpackSimpleType env record info prop s =
         unpackSimpleType env record info { prop with length := n } s) :=
  ⟨fun env record info prop s mi hm hl hv =>
     unpack_absent_case env record info prop s mi hm hl hv,
   fun env record info prop s n hf hio hl0 hs hn =>
     unpack_substitute_length env record info prop s n hf hio hl0 hs hn⟩

/-- Witness for C4 at concrete inputs: with pending `0` the field `FieldB`
is emitted as `None` with the cursor unmoved; with pending `3` the decode of
the length-0 field coincides with the decode of the same field declared with
static length 3. -/
theorem C4_pending_length_witness :
    unpackSimpleType envA recA infoA propVar0
        { index := 1, vfieldLength := Option.some 0 } =
      Except.ok ([("FieldB", PyVal.none)],
        { index := 1, vfieldLength := Option.none }) ∧
    unpackSimpleType envA recA infoA propVar0
        { index := 0, vfieldLength := Option.some 3 } =
      unpackSimpleType envA recA infoA { propVar0 with length := 3 }
        { index := 0, vfieldLength := Option.some 3 } :=
  ⟨C4_pending_length.1 envA recA infoA propVar0
     { index := 1, vfieldLength := Option.some 0 } Option.none rfl rfl rfl,
   C4_pending_length.2 envA recA infoA propVar0
     { index := 0, vfieldLength := Option.some 3 } 3 rfl (by decide) rfl rfl
     (by decide)⟩

/-! ### Claim C6 -/

/-- C6: whenever `TdhFormatProperty` reports
`ERROR_EVT_INVALID_EVENT_DATA` for a scalar field — from the probe call or
from the fill call — the decoder does not raise: it copies exactly the
remaining unread payload bytes into a fresh buffer with one (wide) NUL
terminator appended, reports bytes-consumed equal to the remaining length so
`self.index` advances to the end of the payload, and still emits a value for
the field (the NUL-truncated bytes, through a converter when one exists). -/
theorem C6_fragment_recovery (env : Env) (record : EventRecord)
    (info : TraceEventInfo) (prop : EventProperty) (s : ConsumerState)
    (base : Nat) (mi : Option Nat) (pl0 : Int)
    (hud : record.userData = Option.some base)
    (hlen : record.userDataLength < 65536)
    (hidx : s.index < record.userDataLength)
    (hvf : s.vfieldLength = Option.none)
    (hm : getMapInfo env record info prop = Except.ok (mi, true))
    (hl : getPropertyLength env record info prop = Except.ok (Option.some pl0))
    (hst :
      (env.fmtProbeStatus record
          (mkFmtQuery record prop mi
            (if record.header.flags &&& EVENT_HEADER_FLAG_32_BIT_HEADER ≠ 0
             then 4 else 8)
            pl0 s.index ((record.userDataLength : Int) - (s.index : Int))) =
        ERROR_EVT_INVALID_EVENT_DATA) ∨
      (env.fmtProbeStatus record
          (mkFmtQuery record prop mi
            (if record.header.flags &&& EVENT_HEADER_FLAG_32_BIT_HEADER ≠ 0
             then 4 else 8)
            pl0 s.index ((record.userDataLength : Int) - (s.index : Int))) =
        ERROR_INSUFFICIENT_BUFFER ∧
       env.fmtFillStatus record
          (mkFmtQuery record prop mi
            (if record.header.flags &&& EVENT_HEADER_FLAG_32_BIT_HEADER ≠ 0
             then 4 else 8)
            pl0 s.index ((record.userDataLength : Int) - (s.index : Int))) =
        ERROR_EVT_INVALID_EVENT_DATA)) :
    unpackSimpleType env record info prop s =
      Except.ok
        ([(info.strings prop.nameOffset,
           if env.hasConverter prop.outType
           then env.convert prop.outType (PyVal.bytes (cCharValue
             ((record.payload.drop s.index).take
               (record.userDataLength - s.index) ++ [0, 0])))
           else PyVal.bytes (cCharValue
             ((record.payload.drop s.index).take
               (record.userDataLength - s.index) ++ [0, 0])))],
         { index := record.userDataLength,
           vfieldLength :=
             if strEndsWith (strLower (info.strings prop.nameOffset)) "length"
             then pyIntOfBytes (cCharValue
               ((record.payload.drop s.index).take
                 (record.userDataLength - s.index) ++ [0, 0]))
             else Option.none }) := by
  have htn : ((record.userDataLength : Int) - (s.index : Int)).toNat =
      record.userDataLength - s.index := by omega
  have hmod : (record.userDataLength - s.index) % 65536 =
      record.userDataLength - s.index := by omega
  have hadd : s.index + (record.userDataLength - s.index) =
      record.userDataLength := by omega
  have hrem : ¬((record.userDataLength : Int) - (s.index : Int) ≤ 0) := by omega
  unfold unpackSimpleType
  rw [hm]
  simp only [Bool.true_eq_false, if_false]
  unfold unpackSimpleTypeCore
  rw [hl]
  have hpend : (if pl0 = 0 then s.vfieldLength else Option.none) =
      Option.none := by
    rw [hvf]; split <;> rfl
  dsimp only
  rw [hpend]
  dsimp only
  unfold unpackSimpleTypeFormat
  rw [hud]
  rw [if_neg hrem]
  simp only [mkFmtQuery] at hst ⊢
  rcases hst with hst | ⟨hst1, hst2⟩
  · rw [hst]
    simp only [ERROR_EVT_INVALID_EVENT_DATA, ERROR_INSUFFICIENT_BUFFER,
      ERROR_SUCCESS, handleEvtInvalidEvtData]
    norm_num
    simp only [htn, hmod, hadd, hvf]
    by_cases hend :
        strEndsWith (strLower (info.strings prop.nameOffset)) "length" = true <;>
      simp [hend, vfieldParse]
  · rw [hst1, hst2]
    simp only [ERROR_EVT_INVALID_EVENT_DATA, ERROR_INSUFFICIENT_BUFFER,
      ERROR_SUCCESS, handleEvtInvalidEvtData]
    norm_num
    simp only [htn, hmod, hadd, hvf]
    by_cases hend :
        strEndsWith (strLower (info.strings prop.nameOffset)) "length" = true <;>
      simp [hend, vfieldParse]

/-- C6 fixture: a scalar field of declared length 9, larger than the 4-byte
fixture payload; the formatter fill call reports invalid event data. -/
theorem C6_fragment_recovery_witness :
    unpackSimpleType
        { envA with fmtFillStatus := fun _ _ => ERROR_EVT_INVALID_EVENT_DATA }
        recA infoA (mkScalarProp 20 10 9)
        { index := 0, vfieldLength := Option.none } =
      Except.ok ([("FieldA", PyVal.bytes [65, 66, 67, 68])],
        { index := 4, vfieldLength := Option.none }) :=
  C6_fragment_recovery
    { envA with fmtFillStatus := fun _ _ => ERROR_EVT_INVALID_EVENT_DATA }
    recA infoA (mkScalarProp 20 10 9) { index := 0, vfieldLength := Option.none }
    4096 Option.none 9 rfl (by decide) (by decide) rfl rfl rfl
    (Or.inr ⟨rfl, rfl⟩)

/-! ### Claim C8 -/

/-- C8: for every record whose metadata resolves and whose derived task name
(the task-name string, or the provider name when `TaskNameOffset` is the
sentinel 0, stripped and upper-cased) is not a member of a non-empty filter
list, `_processEvent` produces no output: the callback value is `none` and
the consumer state is untouched.  The environment `env` is universally
quantified, so the conclusion holds whatever the Type Formatter components
of `env` would answer — the filtered path never consults them. -/
theorem C8_filtered_no_output (env : Env) (record : EventRecord)
    (filters : List String) (s : ConsumerState) (info : TraceEventInfo)
    (hinfo : getEventInformation env record = Except.ok (InfoResult.found info))
    (hne : filters ≠ [])
    (hnot : taskNameOf info ∉ filters) :
    processEvent env record filters s = Except.ok (Option.none, s) := by
  unfold processEvent
  rw [hinfo]
  simp [hne, hnot]

/-- Witness for C8 at a concrete input: the fixture record's derived task
name is `"TASK"` (from `" tAsk "`), which is not in the filter list
`["OTHER"]`, so the decode yields no callback value and leaves the incoming
state `⟨3, some 2⟩` unchanged. -/
theorem C8_filtered_no_output_witness :
    processEvent envA recA ["OTHER"]
        { index := 3, vfieldLength := Option.some 2 } =
      Except.ok (Option.none, { index := 3, vfieldLength := Option.some 2 }) :=
  C8_filtered_no_output envA recA ["OTHER"]
    { index := 3, vfieldLength := Option.some 2 } infoA rfl (by decide)
    (by decide)

/-! ### Claim C9 -/

/-- C9: decoding the same `(record, metadata)` pair twice yields identical
outputs whatever consumer state each decode starts from — `_processEvent`
resets `self.index` and `self.vfield_length` before the field loop, so no
cross-record state can change the delivered payload.  In particular two runs
from fresh cursors, or a second run from the state the first left behind,
produce the same output. -/
theorem C9_idempotent (env : Env) (record : EventRecord)
    (filters : List String) (s1 s2 : ConsumerState) :
    decodeOutput (processEvent env record filters s1) =
      decodeOutput (processEvent env record filters s2) :=
  processEvent_state_irrel env record filters s1 s2

/-- Witness for C7 at a concrete input. -/
theorem C7_fixed_count_unsupported_witness :
    getArraySize envA recA infoA
      { propBothCountFlags with flags :=
          { propertyStruct := false, paramLength := false, paramCount := false,
            paramFixedCount := true } } =
      Except.error (PyErr.etwException "PropertyParamFixedCount not supported") :=
  C7_fixed_count_unsupported envA recA infoA
    { propBothCountFlags with flags :=
        { propertyStruct := false, paramLength := false, paramCount := false,
          paramFixedCount := true } }
    (by decide) (by decide)

end Etw
